import Mathlib

/-!
Shallow embedding of the Catalog Store of the Library Management System
(`project.py`, class `DatabaseManager`), an SQLite-backed single-table store
`books(title TEXT NOT NULL, author TEXT NOT NULL, isbn TEXT PRIMARY KEY,
genre TEXT, pub_year TEXT)`.

Modelling decisions, each traced to the source:
* A row is five text columns; `genre` and `pub_year` are nullable, `title`
  and `author` carry a NOT NULL constraint, so those four are `Option String`
  (with `none` standing for SQL NULL).  `isbn` is the required identity key
  of the data model and is modelled as `String`.
* The table contents are a `List Book` in physical row order; `SELECT *`
  (`get_all_books`) returns the rows in that order.
* The program holds a single connection, so every read sees the connection's
  own pending writes; commits are therefore not modelled separately and each
  statement's effect is applied directly to the list.
* `add_book` executes one INSERT inside try/except and returns a Bool; an
  INSERT violating a constraint (duplicate primary key, or NULL in a
  NOT NULL column) fails as a statement, leaving the table untouched.
* `delete_book` executes DELETE WHERE isbn = ?; SQLite raises no error when
  no row matches, so the function returns `true` in every modelled run.
* `add_sample_books` runs `executemany` with no try/except and no rollback:
  rows are inserted one at a time and the first constraint violation aborts
  the remainder, leaving the earlier rows of the batch in place.
* `create_tables` is CREATE TABLE IF NOT EXISTS: it creates an empty table
  when absent and leaves an existing table untouched.  The state including
  table existence is `Option (List Book)`, `none` meaning "table absent".
* `_generate_sample_data` draws from `random`; the random stream is made
  explicit as a `SampleDraw` oracle per generated record, each component
  ranging exactly over the range of the corresponding `random.choice` /
  `random.randint` call.
-/

/-- One row of the `books` table: five text columns, `title` and `author`
NOT NULL in the schema but still nullable at the SQL level (`none` = NULL),
`isbn` the primary key. -/
structure Book where
  title : Option String
  author : Option String
  isbn : String
  genre : Option String
  pub_year : Option String
deriving DecidableEq, Repr

/-- The constraints the INSERT statement of `add_book` / `executemany` can
violate: duplicate `isbn` (PRIMARY KEY) or NULL `title` / `author`
(NOT NULL).  SQLite checks NOT NULL against NULL only: the empty string
satisfies it. -/
def violatesConstraints (b : Book) (st : List Book) : Bool :=
  st.any (fun r => r.isbn == b.isbn) || b.title.isNone || b.author.isNone

/-- `DatabaseManager.add_book`: one INSERT inside try/except; a constraint
violation raises `sqlite3.Error` before any row is added, caught and turned
into `false`; otherwise the row is appended and `true` returned. -/
def addBook (b : Book) (st : List Book) : Bool × List Book :=
  if violatesConstraints b st then (false, st) else (true, st ++ [b])

/-- `DatabaseManager.get_all_books`: SELECT * FROM books, rows in storage
order. -/
def getAllBooks (st : List Book) : List Book := st

/-- `DatabaseManager.delete_book`: DELETE FROM books WHERE isbn = ?.  The
statement matches zero or one row, never errors on an absent key, and the
method returns `true`. -/
def deleteBook (isbn : String) (st : List Book) : Bool × List Book :=
  (true, st.filter (fun r => !(r.isbn == isbn)))

/-- `cursor.executemany` as used by `add_sample_books`: the INSERT runs once
per record, in order; the first constraint violation raises, aborting the
rest of the batch while the rows already inserted remain (no rollback
anywhere in the source).  `true` means the whole batch ran without error. -/
def insertMany : List Book → List Book → Bool × List Book
  | [], st => (true, st)
  | b :: bs, st =>
    if violatesConstraints b st then (false, st)
    else insertMany bs (st ++ [b])

/-- `DatabaseManager.create_tables`: CREATE TABLE IF NOT EXISTS — creates an
empty table when absent, leaves an existing table as is. -/
def createTables : Option (List Book) → Option (List Book)
  | none => some []
  | some bs => some bs

/-- `DatabaseManager.connect`: opens the connection; it does not touch the
table state. -/
def connect (s : Option (List Book)) : Option (List Book) := s

/-- The store initialization performed by `DatabaseManager.__init__`:
connect, then ensure the schema. -/
def initializeStore (s : Option (List Book)) : Option (List Book) :=
  createTables (connect s)

/-- Fixed title pool of `_generate_sample_data`. -/
def titles : List String :=
  ["The Art of Programming", "Digital Fortress", "The Silent Patient",
   "The Midnight Library", "Atomic Habits", "Deep Learning Basics",
   "Python Mastery", "Data Science 101", "Web Development Guide",
   "Artificial Intelligence"]

/-- Fixed author pool of `_generate_sample_data`. -/
def authors : List String :=
  ["John Smith", "Emma Wilson", "Michael Brown", "Sarah Davis",
   "James Johnson", "Robert Martin", "David Miller", "Lisa Anderson"]

/-- Fixed genre pool of `_generate_sample_data`. -/
def genres : List String :=
  ["Programming", "Technology", "Computer Science", "Software Development",
   "Data Science", "Web Development", "Artificial Intelligence"]

/-- The random draws one loop iteration of `_generate_sample_data` consumes:
an index into each pool (`random.choice`), the title suffix
`random.randint(1, 5)` (stored as `Fin 5`, value + 1), ten ISBN digits
`random.randint(0, 9)`, and the year offset `random.randint(cy - 20, cy)`
(stored as `Fin 21`, year = cy - 20 + offset). -/
structure SampleDraw where
  titleIdx : Fin titles.length
  titleNum : Fin 5
  authorIdx : Fin authors.length
  isbnDigit : Fin 10 → Fin 10
  genreIdx : Fin genres.length
  yearOff : Fin 21

/-- One record built by the loop body of `_generate_sample_data`, for the
given current year and random draws. -/
def mkSampleBook (cy : Nat) (d : SampleDraw) : Book where
  title := some (titles.get d.titleIdx ++ " " ++ toString (d.titleNum.val + 1))
  author := some (authors.get d.authorIdx)
  isbn := String.mk (List.ofFn (fun i : Fin 10 => Nat.digitChar (d.isbnDigit i).val))
  genre := some (genres.get d.genreIdx)
  pub_year := some (toString (cy - 20 + d.yearOff.val))

/-- `DatabaseManager._generate_sample_data`: the 50 records generated for
the given current year by the given random draws. -/
def generateSampleData (cy : Nat) (draws : Fin 50 → SampleDraw) : List Book :=
  List.ofFn (fun i => mkSampleBook cy (draws i))

/-- `DatabaseManager.add_sample_books`: generate the sample data and bulk
insert it via `executemany`. -/
def addSampleBooks (cy : Nat) (draws : Fin 50 → SampleDraw) (st : List Book) :
    Bool × List Book :=
  insertMany (generateSampleData cy draws) st

/-- Store states reachable from an empty store (fresh table) by any sequence
of the store operations: re-initialization, single insert, bulk insert,
delete. -/
inductive Reachable : Option (List Book) → Prop where
  | empty : Reachable (some [])
  | initStep {s} : Reachable s → Reachable (initializeStore s)
  | insert (b : Book) {bs} : Reachable (some bs) → Reachable (some (addBook b bs).2)
  | insertManyStep (l : List Book) {bs} :
      Reachable (some bs) → Reachable (some (insertMany l bs).2)
  | delete (k : String) {bs} :
      Reachable (some bs) → Reachable (some (deleteBook k bs).2)

/-- Sample concrete record used by witnesses. -/
def dune : Book :=
  { title := some ("Dune"), author := some ("Frank Herbert"),
    isbn := "1234567890", genre := some ("Sci-Fi"), pub_year := some ("1965") }

/-- Record sharing `dune`'s isbn with different other fields. -/
def duneVariant : Book :=
  { title := some ("Dune Messiah"), author := some ("F. Herbert"),
    isbn := "1234567890", genre := some ("Fiction"), pub_year := some ("1969") }

/-- Record with an isbn distinct from `dune`'s. -/
def hobbit : Book :=
  { title := some ("The Hobbit"), author := some ("J. R. R. Tolkien"),
    isbn := "0345339681", genre := some ("Fantasy"), pub_year := some ("1937") }

example : addBook dune [] = (true, [dune]) := by decide
example : addBook duneVariant [dune] = (false, [dune]) := by decide
example : deleteBook "1234567890" [] = (true, []) := by decide
example : insertMany [hobbit, duneVariant, hobbit] [dune] = (false, [dune, hobbit]) := by decide

/-! ### Helper lemmas -/

theorem violatesConstraints_eq_true {b : Book} {st : List Book} :
    violatesConstraints b st = true ↔
      (∃ r ∈ st, r.isbn = b.isbn) ∨ b.title = none ∨ b.author = none := by
  simp [violatesConstraints, List.any_eq_true, Option.isNone_iff_eq_none,
    or_assoc]

theorem addBook_of_violates {b : Book} {st : List Book}
    (h : violatesConstraints b st = true) : addBook b st = (false, st) := by
  simp [addBook, h]

theorem addBook_of_ok {b : Book} {st : List Book}
    (h : ¬ violatesConstraints b st = true) : addBook b st = (true, st ++ [b]) := by
  simp [addBook, h]

theorem addBook_snd_cases (b : Book) (st : List Book) :
    (addBook b st).2 = st ∨
      ((addBook b st).2 = st ++ [b] ∧ ∀ r ∈ st, r.isbn ≠ b.isbn) := by
  by_cases h : violatesConstraints b st = true
  · exact Or.inl (by simp [addBook_of_violates h])
  · refine Or.inr ⟨by simp [addBook_of_ok h], ?_⟩
    intro r hr heq
    exact h (violatesConstraints_eq_true.mpr (Or.inl ⟨r, hr, heq⟩))

theorem nodup_key_unique {st : List Book} (hnd : (st.map Book.isbn).Nodup)
    {r r' : Book} (hr : r ∈ st) (hr' : r' ∈ st) (h : r.isbn = r'.isbn) :
    r = r' :=
  List.inj_on_of_nodup_map hnd hr hr' h

theorem addBook_preserves_nodup {b : Book} {st : List Book}
    (hnd : (st.map Book.isbn).Nodup) :
    (((addBook b st).2).map Book.isbn).Nodup := by
  rcases addBook_snd_cases b st with h | ⟨h, hfresh⟩
  · rw [h]; exact hnd
  · rw [h, List.map_append]
    simp only [List.map_cons, List.map_nil]
    rw [List.nodup_append]
    refine ⟨hnd, List.nodup_singleton _, ?_⟩
    intro k hk hk'
    simp only [List.mem_singleton] at hk'
    rcases List.mem_map.mp hk with ⟨r, hr, hrk⟩
    exact hfresh r hr (hrk.symm ▸ hk')

theorem insertMany_preserves_nodup (l : List Book) :
    ∀ st : List Book, (st.map Book.isbn).Nodup →
      (((insertMany l st).2).map Book.isbn).Nodup := by
  induction l with
  | nil => intro st hnd; simpa [insertMany] using hnd
  | cons b bs ih =>
    intro st hnd
    by_cases h : violatesConstraints b st = true
    · simpa [insertMany, h] using hnd
    · have hstep : (((addBook b st).2).map Book.isbn).Nodup :=
        addBook_preserves_nodup hnd
      rw [addBook_of_ok h] at hstep
      simpa [insertMany, h] using ih (st ++ [b]) hstep

theorem deleteBook_preserves_nodup {k : String} {st : List Book}
    (hnd : (st.map Book.isbn).Nodup) :
    (((deleteBook k st).2).map Book.isbn).Nodup := by
  have hsub : List.Sublist (deleteBook k st).2 st := by
    simp [deleteBook]
  exact (hsub.map Book.isbn).nodup hnd

/-! ### Claim theorems -/

/-- Claim C1: for every store state containing a record with isbn K, an
insert of any record with that same isbn (whatever its other fields)
returns failure, the store is unchanged, and a subsequent list_all still
shows the first record and shows only its values for K. -/
theorem C1_duplicate_insert_fails (st : List Book) (r0 b : Book)
    (hmem : r0 ∈ st) (hkey : b.isbn = r0.isbn)
    (hnd : (st.map Book.isbn).Nodup) :
    (addBook b st).1 = false ∧
      getAllBooks (addBook b st).2 = getAllBooks st ∧
      r0 ∈ getAllBooks (addBook b st).2 ∧
      ∀ r ∈ getAllBooks (addBook b st).2, r.isbn = r0.isbn → r = r0 := by
  have hviol : violatesConstraints b st = true :=
    violatesConstraints_eq_true.mpr (Or.inl ⟨r0, hmem, hkey.symm⟩)
  rw [addBook_of_violates hviol]
  exact ⟨rfl, rfl, hmem, fun r hr h => nodup_key_unique hnd hr hmem h⟩

/-- Witness for C1 at a concrete state: the store holds `dune`, and
inserting `duneVariant` (same isbn, different other fields) fails leaving
the store showing only `dune` for that isbn. -/
theorem C1_witness :
    dune ∈ [dune] ∧ duneVariant.isbn = dune.isbn ∧
      (([dune].map Book.isbn)).Nodup ∧
      ((addBook duneVariant [dune]).1 = false ∧
        getAllBooks (addBook duneVariant [dune]).2 = getAllBooks [dune] ∧
        dune ∈ getAllBooks (addBook duneVariant [dune]).2 ∧
        ∀ r ∈ getAllBooks (addBook duneVariant [dune]).2,
          r.isbn = dune.isbn → r = dune) :=
  ⟨by decide, by decide, by decide,
    C1_duplicate_insert_fails [dune] dune duneVariant (by decide) (by decide)
      (by decide)⟩

/-- Claim C3: whenever an insert succeeds, a subsequent list_all contains
the inserted record with all five fields exactly as supplied. -/
theorem C3_roundtrip (st : List Book) (b : Book)
    (h : (addBook b st).1 = true) :
    b ∈ getAllBooks (addBook b st).2 ∧
      ∃ r ∈ getAllBooks (addBook b st).2,
        r.title = b.title ∧ r.author = b.author ∧ r.isbn = b.isbn ∧
          r.genre = b.genre ∧ r.pub_year = b.pub_year := by
  by_cases hviol : violatesConstraints b st = true
  · rw [addBook_of_violates hviol] at h
    simp at h
  · rw [addBook_of_ok hviol]
    have hb : b ∈ getAllBooks (st ++ [b]) := by
      simp [getAllBooks]
    exact ⟨hb, b, hb, rfl, rfl, rfl, rfl, rfl⟩

/-- Witness for C3: inserting `dune` into the empty store succeeds and
list_all contains it verbatim. -/
theorem C3_witness :
    (addBook dune []).1 = true ∧
      (dune ∈ getAllBooks (addBook dune []).2 ∧
        ∃ r ∈ getAllBooks (addBook dune []).2,
          r.title = dune.title ∧ r.author = dune.author ∧
            r.isbn = dune.isbn ∧ r.genre = dune.genre ∧
            r.pub_year = dune.pub_year) :=
  ⟨by decide, C3_roundtrip [] dune (by decide)⟩

/-- Counterexample to claim C4: deleting an isbn that was never inserted —
here on a store that went through insert of `dune` and a first (successful)
delete — returns `true`, i.e. success, not the failure the claim requires;
the second delete of the same isbn is likewise reported as success. -/
theorem C4_counterexample :
    (deleteBook "1234567890" (deleteBook "1234567890" [dune]).2).1 = true ∧
      (deleteBook "1234567890" ([] : List Book)).1 = true := by
  decide

/-- Claim C4 as amended: deleting an absent isbn is a no-op on the store but
is reported as success — the returned Bool reflects only storage errors,
never whether a row actually matched, so a repeated delete also returns
success. -/
theorem C4_delete_absent_succeeds (st : List Book) (k : String)
    (habs : ∀ r ∈ st, r.isbn ≠ k) :
    (deleteBook k st).1 = true ∧ getAllBooks (deleteBook k st).2 = getAllBooks st := by
  refine ⟨rfl, ?_⟩
  simp only [deleteBook, getAllBooks]
  exact List.filter_eq_self.mpr (fun r hr => by simpa using habs r hr)

/-- Witness for C4's amended claim: deleting an isbn from a store that does
not contain it returns success and leaves the store unchanged. -/
theorem C4_witness :
    (∀ r ∈ [dune], r.isbn ≠ "0000000000") ∧
      ((deleteBook "0000000000" [dune]).1 = true ∧
        getAllBooks (deleteBook "0000000000" [dune]).2 = getAllBooks [dune]) :=
  ⟨by decide, C4_delete_absent_succeeds [dune] "0000000000" (by decide)⟩

/-- Claim C5: a delete of a present isbn K returns success, removes every
record with isbn K from list_all, keeps every record with a different isbn,
and adds nothing that was not already stored. -/
theorem C5_delete_frame (st : List Book) (r0 : Book) (hmem : r0 ∈ st) :
    (deleteBook r0.isbn st).1 = true ∧
      (∀ r ∈ getAllBooks (deleteBook r0.isbn st).2, r.isbn ≠ r0.isbn) ∧
      (∀ r ∈ st, r.isbn ≠ r0.isbn → r ∈ getAllBooks (deleteBook r0.isbn st).2) ∧
      (∀ r ∈ getAllBooks (deleteBook r0.isbn st).2, r ∈ st) := by
  refine ⟨rfl, ?_, ?_, ?_⟩
  · intro r hr
    have := List.of_mem_filter hr
    simpa using this
  · intro r hr hne
    exact List.mem_filter.mpr ⟨hr, by simpa using hne⟩
  · intro r hr
    exact List.mem_of_mem_filter hr

/-- Witness for C5: deleting `dune`'s isbn from a two-record store removes
`dune` and keeps `hobbit` unchanged. -/
theorem C5_witness :
    dune ∈ [dune, hobbit] ∧
      ((deleteBook dune.isbn [dune, hobbit]).1 = true ∧
        (∀ r ∈ getAllBooks (deleteBook dune.isbn [dune, hobbit]).2,
          r.isbn ≠ dune.isbn) ∧
        (∀ r ∈ [dune, hobbit], r.isbn ≠ dune.isbn →
          r ∈ getAllBooks (deleteBook dune.isbn [dune, hobbit]).2) ∧
        (∀ r ∈ getAllBooks (deleteBook dune.isbn [dune, hobbit]).2,
          r ∈ [dune, hobbit])) :=
  ⟨by decide, C5_delete_frame [dune, hobbit] dune (by decide)⟩

/-- Record with empty-string title and author: SQLite's NOT NULL accepts
the empty string, so this row is insertable. -/
def emptyFieldsBook : Book :=
  { title := some (""), author := some (""), isbn := "1111111111",
    genre := some (""), pub_year := some ("") }

/-- Counterexample to claim C7: inserting a record whose title and author
are the empty string into the empty store succeeds and changes the store —
the store does not enforce non-emptiness, only non-NULL. -/
theorem C7_counterexample :
    addBook emptyFieldsBook [] = (true, [emptyFieldsBook]) := by
  decide

/-- Claim C7 as amended: the store's NOT NULL constraints reject a missing
(NULL) title or author — such an insert fails and leaves the store
unchanged — while empty strings are accepted. -/
theorem C7_null_title_author_fails (st : List Book) (b : Book)
    (h : b.title = none ∨ b.author = none) :
    (addBook b st).1 = false ∧ getAllBooks (addBook b st).2 = getAllBooks st := by
  have hviol : violatesConstraints b st = true :=
    violatesConstraints_eq_true.mpr (Or.inr h)
  rw [addBook_of_violates hviol]
  exact ⟨rfl, rfl⟩

/-- Witness for C7's amended claim: a record with NULL title fails to
insert and the store stays as it was. -/
theorem C7_witness :
    ((Book.mk none (some ("A")) "2222222222" none none).title = none ∨
      (Book.mk none (some ("A")) "2222222222" none none).author = none) ∧
      ((addBook (Book.mk none (some ("A")) "2222222222" none none) [dune]).1 = false ∧
        getAllBooks (addBook (Book.mk none (some ("A")) "2222222222" none none) [dune]).2 =
          getAllBooks [dune]) :=
  ⟨by decide,
    C7_null_title_author_fails [dune]
      (Book.mk none (some ("A")) "2222222222" none none) (by decide)⟩

/-- Claim C10: whenever insert reports failure — whichever modelled
constraint caused it — the store contents observed by list_all are exactly
what they were before the call. -/
theorem C10_failed_insert_atomic (st : List Book) (b : Book)
    (h : (addBook b st).1 = false) :
    getAllBooks (addBook b st).2 = getAllBooks st := by
  by_cases hviol : violatesConstraints b st = true
  · rw [addBook_of_violates hviol]
  · rw [addBook_of_ok hviol] at h
    simp at h

/-- Witness for C10: a failing insert (duplicate isbn) leaves list_all
unchanged. -/
theorem C10_witness :
    (addBook duneVariant [dune]).1 = false ∧
      getAllBooks (addBook duneVariant [dune]).2 = getAllBooks [dune] :=
  ⟨by decide, C10_failed_insert_atomic [dune] duneVariant (by decide)⟩

/-- Auxiliary form of the C2 invariant, phrased over the optional state so
the induction over `Reachable` goes through directly. -/
theorem reachable_nodup_aux {s : Option (List Book)} (h : Reachable s) :
    ∀ bs : List Book, s = some bs → (bs.map Book.isbn).Nodup := by
  induction h with
  | empty =>
    intro bs hbs
    cases hbs
    simp
  | initStep h ih =>
    intro bs hbs
    rename_i s'
    cases s' with
    | none =>
      simp only [initializeStore, connect, createTables] at hbs
      cases hbs
      simp
    | some bs2 =>
      simp only [initializeStore, connect, createTables] at hbs
      cases hbs
      exact ih _ rfl
  | insert b h ih =>
    intro bs hbs
    cases hbs
    exact addBook_preserves_nodup (ih _ rfl)
  | insertManyStep l h ih =>
    intro bs hbs
    cases hbs
    exact insertMany_preserves_nodup l _ (ih _ rfl)
  | delete k h ih =>
    intro bs hbs
    cases hbs
    exact deleteBook_preserves_nodup (ih _ rfl)

/-- Claim C2: in every store state reachable from the empty store by
initialization, single inserts, bulk inserts and deletes, the records
returned by list_all have pairwise distinct isbn values. -/
theorem C2_isbn_unique (bs : List Book) (h : Reachable (some bs)) :
    ((getAllBooks bs).map Book.isbn).Nodup :=
  reachable_nodup_aux h bs rfl

/-- Witness for C2: the state reached from the empty store by inserting
`dune` then `hobbit` is reachable and its list_all has distinct isbns. -/
theorem C2_witness :
    Reachable (some [dune, hobbit]) ∧
      ((getAllBooks [dune, hobbit]).map Book.isbn).Nodup := by
  have hreach : Reachable (some [dune, hobbit]) := by
    have h1 : Reachable (some (addBook dune []).2) :=
      Reachable.insert dune Reachable.empty
    have h2 : Reachable (some (addBook hobbit [dune]).2) := by
      apply Reachable.insert hobbit
      have he : (addBook dune []).2 = [dune] := by decide
      rw [he] at h1
      exact h1
    have he' : (addBook hobbit [dune]).2 = [dune, hobbit] := by decide
    rw [he'] at h2
    exact h2
  exact ⟨hreach, C2_isbn_unique [dune, hobbit] hreach⟩

/-- Record with the same isbn as `dune` used to break a batch mid-way. -/
def clashBook : Book :=
  { title := some ("Clash"), author := some ("C. Author"),
    isbn := "1234567890", genre := some ("Test"), pub_year := some ("2000") }

/-- Counterexample to claim C6: with `dune` already stored, the batch
`[hobbit, clashBook]` (where `clashBook` duplicates `dune`'s isbn) makes
the batch operation fail, yet `hobbit` — a record of the failed batch — is
committed and observable via list_all, so the batch is not atomic. -/
theorem C6_counterexample :
    (insertMany [hobbit, clashBook] [dune]).1 = false ∧
      hobbit ∈ getAllBooks (insertMany [hobbit, clashBook] [dune]).2 := by
  decide

/-- Claim C6 as amended: `insert_many` inserts the batch sequentially and
stops at the first constraint violation; the store afterwards holds exactly
the prior rows followed by the longest violation-free prefix of the batch,
and success is reported exactly when that prefix is the whole batch —
records before a failure stay committed, so the batch is not atomic. -/
theorem C6_insertMany_partial (l st : List Book) :
    ∃ p q, l = p ++ q ∧ getAllBooks (insertMany l st).2 = getAllBooks st ++ p ∧
      ((insertMany l st).1 = true ↔ q = []) := by
  induction l generalizing st with
  | nil =>
    exact ⟨[], [], rfl, by simp [insertMany, getAllBooks], by simp [insertMany]⟩
  | cons b bs ih =>
    by_cases hviol : violatesConstraints b st = true
    · refine ⟨[], b :: bs, rfl, by simp [insertMany, hviol, getAllBooks], ?_⟩
      simp [insertMany, hviol]
    · rcases ih (st ++ [b]) with ⟨p, q, hpq, hsnd, hfst⟩
      refine ⟨b :: p, q, by simp [hpq], ?_, ?_⟩
      · simp only [insertMany, hviol, if_neg, Bool.false_eq_true,
          not_false_eq_true, getAllBooks] at hsnd ⊢
        rw [hsnd]
        simp
      · simpa [insertMany, hviol] using hfst

/-- Claim C8: re-running initialization (connect plus CREATE TABLE IF NOT
EXISTS) on an existing store neither erases nor duplicates records —
list_all after a repeated initialization returns exactly the rows present
before, and initialization is idempotent. -/
theorem C8_initialize_idempotent (bs : List Book) :
    initializeStore (some bs) = some (getAllBooks bs) ∧
      initializeStore (initializeStore (some bs)) = initializeStore (some bs) := by
  exact ⟨rfl, rfl⟩

/-- Every single decimal digit rendered by `Nat.digitChar` is a digit
character. -/
theorem digitChar_isDigit : ∀ v : Fin 10, (Nat.digitChar v.val).isDigit = true := by
  decide

/-- A generated sample record's isbn has exactly 10 characters. -/
theorem mkSampleBook_isbn_length (cy : Nat) (d : SampleDraw) :
    (mkSampleBook cy d).isbn.length = 10 := by
  show (List.ofFn (fun i : Fin 10 => Nat.digitChar (d.isbnDigit i).val)).length = 10
  exact List.length_ofFn _

/-- Every character of a generated sample record's isbn is a decimal
digit. -/
theorem mkSampleBook_isbn_digits (cy : Nat) (d : SampleDraw) :
    ∀ c ∈ (mkSampleBook cy d).isbn.data, c.isDigit = true := by
  intro c hc
  have hc' : c ∈ List.ofFn (fun i : Fin 10 => Nat.digitChar (d.isbnDigit i).val) := hc
  rcases (List.mem_ofFn _ _).mp hc' with ⟨i, hi⟩
  rw [← hi]
  exact digitChar_isDigit (d.isbnDigit i)

/-- When a batch has pairwise distinct isbns, all fresh against the store
and with non-NULL title and author, `executemany` inserts every record and
reports success. -/
theorem insertMany_all_ok (l : List Book) :
    ∀ st : List Book, (l.map Book.isbn).Nodup →
      (∀ b ∈ l, ∀ r ∈ st, r.isbn ≠ b.isbn) →
      (∀ b ∈ l, b.title ≠ none ∧ b.author ≠ none) →
      insertMany l st = (true, st ++ l) := by
  induction l with
  | nil => intro st _ _ _; simp [insertMany]
  | cons b bs ih =>
    intro st hnd hfresh hfield
    have hviol : ¬ violatesConstraints b st = true := by
      intro hv
      rcases violatesConstraints_eq_true.mp hv with ⟨r, hr, heq⟩ | h | h
      · exact hfresh b (by simp) r hr heq
      · exact (hfield b (by simp)).1 h
      · exact (hfield b (by simp)).2 h
    have hnotmem : b.isbn ∉ bs.map Book.isbn :=
      (List.nodup_cons.mp (by simpa using hnd)).1
    have hnd' : (bs.map Book.isbn).Nodup :=
      (List.nodup_cons.mp (by simpa using hnd)).2
    have hfresh' : ∀ b' ∈ bs, ∀ r ∈ st ++ [b], r.isbn ≠ b'.isbn := by
      intro b' hb' r hr
      rcases List.mem_append.mp hr with hr' | hr'
      · exact hfresh b' (List.mem_cons_of_mem _ hb') r hr'
      · have hrb : r = b := by simpa using hr'
        subst hrb
        intro heq
        exact hnotmem (List.mem_map.mpr ⟨b', hb', heq.symm⟩)
    have hfield' : ∀ b' ∈ bs, b'.title ≠ none ∧ b'.author ≠ none :=
      fun b' hb' => hfield b' (List.mem_cons_of_mem _ hb')
    have hrec := ih (st ++ [b]) hnd' hfresh' hfield'
    simp only [insertMany, if_neg hviol, hrec]
    simp

/-- Claim C9 as amended: provided the 50 randomly drawn isbns are pairwise
distinct (the generator does not guarantee this), bulk-inserting the
generated sample data into an empty store succeeds and list_all returns 50
records, each isbn a string of exactly 10 decimal digits and each
publication year, read as a number, between the current year minus 20 and
the current year inclusive (`hcy` records that the current year is at
least 20, as for any calendar year). -/
theorem C9_sample_bulk_insert (cy : Nat) (draws : Fin 50 → SampleDraw)
    (hcy : 20 ≤ cy)
    (hnd : ((generateSampleData cy draws).map Book.isbn).Nodup) :
    (addSampleBooks cy draws []).1 = true ∧
      (getAllBooks (addSampleBooks cy draws []).2).length = 50 ∧
      ∀ b ∈ getAllBooks (addSampleBooks cy draws []).2,
        b.isbn.length = 10 ∧ (∀ c ∈ b.isbn.data, c.isDigit = true) ∧
          ∃ n : Nat, b.pub_year = some (toString n) ∧ cy - 20 ≤ n ∧ n ≤ cy := by
  have hall : insertMany (generateSampleData cy draws) [] =
      (true, [] ++ generateSampleData cy draws) := by
    apply insertMany_all_ok _ _ hnd
    · intro b _ r hr
      simp at hr
    · intro b hb
      have hb2 : b ∈ List.ofFn (fun i => mkSampleBook cy (draws i)) := hb
      rcases (List.mem_ofFn _ _).mp hb2 with ⟨i, hi⟩
      rw [← hi]
      exact ⟨by simp [mkSampleBook], by simp [mkSampleBook]⟩
  refine ⟨?_, ?_, ?_⟩
  · show (insertMany (generateSampleData cy draws) []).1 = true
    rw [hall]
  · show (getAllBooks (insertMany (generateSampleData cy draws) []).2).length = 50
    rw [hall]
    show (List.ofFn (fun i => mkSampleBook cy (draws i))).length = 50
    exact List.length_ofFn _
  · intro b hb
    have hgb : getAllBooks (addSampleBooks cy draws []).2 =
        generateSampleData cy draws := by
      show (insertMany (generateSampleData cy draws) []).2 = _
      rw [hall]
      rfl
    have hb' : b ∈ generateSampleData cy draws := by rwa [hgb] at hb
    have hb2 : b ∈ List.ofFn (fun i => mkSampleBook cy (draws i)) := hb'
    rcases (List.mem_ofFn _ _).mp hb2 with ⟨i, hi⟩
    rw [← hi]
    refine ⟨mkSampleBook_isbn_length _ _, mkSampleBook_isbn_digits _ _, ?_⟩
    refine ⟨cy - 20 + (draws i).yearOff.val, rfl, Nat.le_add_right _ _, ?_⟩
    have hlt := (draws i).yearOff.isLt
    omega

/-- Concrete draws whose 50 isbns are pairwise distinct: record i gets the
two-digit encoding of i in the last two isbn positions. -/
def C9Draws (i : Fin 50) : SampleDraw where
  titleIdx := ⟨0, by decide⟩
  titleNum := ⟨0, by decide⟩
  authorIdx := ⟨0, by decide⟩
  isbnDigit := fun j =>
    if j.val = 8 then ⟨i.val / 10, by have := i.isLt; omega⟩
    else if j.val = 9 then ⟨i.val % 10, by have := i.isLt; omega⟩
    else ⟨0, by decide⟩
  genreIdx := ⟨0, by decide⟩
  yearOff := ⟨0, by decide⟩

/-- Witness for C9's amended claim at the current year 2025 and the
distinct-isbn draws `C9Draws`. -/
theorem C9_witness :
    20 ≤ 2025 ∧
      ((generateSampleData 2025 C9Draws).map Book.isbn).Nodup ∧
      ((addSampleBooks 2025 C9Draws []).1 = true ∧
        (getAllBooks (addSampleBooks 2025 C9Draws []).2).length = 50 ∧
        ∀ b ∈ getAllBooks (addSampleBooks 2025 C9Draws []).2,
          b.isbn.length = 10 ∧ (∀ c ∈ b.isbn.data, c.isDigit = true) ∧
            ∃ n : Nat, b.pub_year = some (toString n) ∧ 2025 - 20 ≤ n ∧ n ≤ 2025) :=
  ⟨by decide, by decide,
    C9_sample_bulk_insert 2025 C9Draws (by decide) (by decide)⟩

/-- Degenerate but possible draws: every iteration draws the same values,
so all 50 generated isbns coincide. -/
def C9BadDraws : Fin 50 → SampleDraw := fun _ => C9Draws ⟨0, by decide⟩

/-- Counterexample to claim C9 as stated: when the random draws repeat (all
50 isbns equal — a possible outcome of `random.randint`), the bulk insert
aborts at the second record and list_all returns 1 record, not 50. -/
theorem C9_counterexample :
    (addSampleBooks 2025 C9BadDraws []).1 = false ∧
      (getAllBooks (addSampleBooks 2025 C9BadDraws []).2).length = 1 := by
  decide
